import Mathlib

/-!
Verification of the retry-and-aggregation core of the image-variation
application (src/unnamed/part_000: `generateImageVariation`,
`compareImagesQuality`; src/unnamed/part_001: `handleGenerate`;
src/unnamed/part_003: the comparator's upload list).

The provider (`ai.models.generateContent`) is an opaque external
collaborator; it is modelled as a function supplied to each embedded
operation.  Waiting (`await wait(delay)`) and provider calls are the
observable effects of `generateImageVariation`; the embedding returns an
instrumented run record (number of provider calls made, the list of
backoff delays awaited in milliseconds, and the final result) so that the
timing and call-count claims can be stated.  Console logging and the
`lastError` bookkeeping in the source have no observable effect on the
returned value and are not modelled.
-/

/-- One inline-data payload of a response part (`part.inlineData` in
src/unnamed/part_000).  `data` is the base64 text; JavaScript truthiness
of `part.inlineData.data` means the empty string counts as absent. -/
structure InlineData where
  mimeType : String
  data : String

/-- One content part of a provider generation response. -/
structure RespPart where
  text : Option String
  inlineData : Option InlineData

/-- The `content` field of a response candidate; `parts` may be absent. -/
structure RespContent where
  parts : Option (List RespPart)

/-- One candidate of a generation response. -/
structure Candidate where
  content : RespContent

/-- A provider generation response: `candidates` may be absent. -/
structure GenResponse where
  candidates : Option (List Candidate)

/-- Outcome of one provider call inside the retry loop: the call either
raises (transport or provider error) or returns a response. -/
inductive AttemptOutcome where
  | err : AttemptOutcome
  | ok : GenResponse → AttemptOutcome

/-- One part of a request sent to the provider (text or inline image). -/
inductive ReqPart where
  | text : String → ReqPart
  | inline : (mimeType : String) → (data : String) → ReqPart

/-- The base prompt block of `generateImageVariation`
(src/unnamed/part_000 lines 18-26), with the user instruction and the
aspect ratio interpolated. -/
def basePromptBlock (prompt aspectRatio : String) : String :=
  "Analyze the attached reference image carefully for style, composition, and key features. \n              \n  Task: Generate a high-fidelity, photorealistic new image based on this analysis and the following instruction: \"" ++
  prompt ++
  "\".\n  \n  Requirements:\n  - Output Resolution: 8K equivalent detail.\n  - Quality: Masterpiece, highly detailed, sharp focus.\n  - Aspect Ratio: " ++
  aspectRatio ++
  ".\n  - Do not simply describe the image; generate the visual result."

/-- The enhancement block appended when `enhanceQuality` is set
(src/unnamed/part_000 lines 29-36). -/
def enhancementBlock : String :=
  "\n    \n    CRITICAL ENHANCEMENT INSTRUCTIONS:\n    - MODE: ULTRA-REALISM & TEXTURE UPSCALING.\n    - Lighting: Apply volumetric lighting, ray-tracing style shadows, and professional color grading (HDR).\n    - Details: Enhance micro-textures (skin pores, fabric threads, material imperfections).\n    - Clarity: Eliminate all compression artifacts, blur, or noise. Denoise and sharpen.\n    - Aesthetics: Cinematic composition, award-winning photography style."

/-- `systemPrompt` as constructed by `generateImageVariation`: the base
block, with the enhancement block appended exactly when `enhanceQuality`
is set (src/unnamed/part_000 lines 18-37). -/
def buildSystemPrompt (prompt aspectRatio : String) (enhanceQuality : Bool) : String :=
  let systemPrompt := basePromptBlock prompt aspectRatio
  if enhanceQuality then systemPrompt ++ enhancementBlock else systemPrompt

/-- The parts of the generation request sent on every attempt
(src/unnamed/part_000 lines 44-56): the system prompt followed by the
inline reference image. -/
def genRequestParts (referenceImageBase64 mimeType prompt aspectRatio : String)
    (enhanceQuality : Bool) : List ReqPart :=
  [ReqPart.text (buildSystemPrompt prompt aspectRatio enhanceQuality),
   ReqPart.inline mimeType referenceImageBase64]

/-- Scan of `response.candidates[0].content.parts` (src/unnamed/part_000
lines 65-69): the data of the first part whose `inlineData` is present
with a non-empty (truthy) `data` string, if any. -/
def firstImagePart : List RespPart → Option String
  | [] => none
  | p :: rest =>
    match p.inlineData with
    | some d => if d.data = "" then firstImagePart rest else some d.data
    | none => firstImagePart rest

/-- The observable result of one attempt body (src/unnamed/part_000 lines
40-74): `some url` when a data URL is returned from inside the `try`,
`none` when the attempt fails — whether because the call raised, because
`candidates` is absent, because `candidates` is empty (so
`candidates[0].content` raises a TypeError that the same `catch`
swallows), because `parts` is absent, or because no part carries image
data (the explicit `throw` on line 73).  All of those failure modes are
caught by the one `catch` and are indistinguishable to the retry loop. -/
def attemptResult (o : AttemptOutcome) : Option String :=
  match o with
  | AttemptOutcome.err => none
  | AttemptOutcome.ok response =>
    match response.candidates with
    | none => none
    | some [] => none
    | some (c :: _) =>
      match c.content.parts with
      | none => none
      | some parts =>
        (firstImagePart parts).map (fun d => "data:image/png;base64," ++ d)

/-- Instrumented record of one `generateImageVariation` run: how many
provider calls were made, the backoff delays awaited (in milliseconds,
in order), and the returned value (`none` is the source's `null`). -/
structure GenRun where
  calls : Nat
  delays : List Nat
  result : Option String
  deriving Repr, DecidableEq

/-- The retry loop of `generateImageVariation` (src/unnamed/part_000
lines 39-86).  `attempt` is the source's 1-based loop counter and
`remaining` the number of iterations still allowed
(`maxRetries - attempt + 1`), so `attempt < maxRetries` in the source is
`remaining ≠ 1` here.  The delay awaited after a failed non-final attempt
is `1000 * 2 ^ (attempt - 1)` milliseconds (line 82). -/
def runGenAux (provider : Nat → AttemptOutcome) : (attempt : Nat) → (remaining : Nat) → GenRun
  | _, 0 => ⟨0, [], none⟩
  | attempt, remaining + 1 =>
    match attemptResult (provider attempt) with
    | some url => ⟨1, [], some url⟩
    | none =>
      if remaining = 0 then ⟨1, [], none⟩
      else
        let rest := runGenAux provider (attempt + 1) remaining
        ⟨rest.calls + 1, 1000 * 2 ^ (attempt - 1) :: rest.delays, rest.result⟩

/-- The embedded `generateImageVariation` (src/unnamed/part_000 lines
5-90): build the system prompt, then run the retry loop starting at
attempt 1.  `provider` maps the request parts and the attempt number to
that call's outcome; `maxRetries` is an `Int` because the source takes an
unchecked JavaScript number, and the `for` loop runs `max 0 maxRetries`
iterations.  When every attempt fails the function returns `null`
(`none`) rather than raising. -/
def generateImageVariation (provider : List ReqPart → Nat → AttemptOutcome)
    (referenceImageBase64 mimeType prompt aspectRatio : String)
    (enhanceQuality : Bool) (maxRetries : Int) : GenRun :=
  runGenAux
    (provider (genRequestParts referenceImageBase64 mimeType prompt aspectRatio enhanceQuality))
    1 maxRetries.toNat

example :
    generateImageVariation (fun _ _ => AttemptOutcome.err) "r" "m" "p" "1:1" false 3 =
      ⟨3, [1000, 2000], none⟩ := by decide

/-- One displayed result of the batch (the `GeneratedImage` interface of
src/types.ts). -/
structure GeneratedImage where
  id : String
  url : String
  prompt : String
  aspectRatio : String
  createdAt : Nat
  enhanced : Bool
  deriving Repr, DecidableEq

/-- The record built for a successful invocation in `handleGenerate`
(src/unnamed/part_001 lines 54-61): the id is the timestamp rendered as
text with the launch index appended. -/
def mkGeneratedImage (now index : Nat) (url prompt aspectRatio : String)
    (enhanced : Bool) : GeneratedImage :=
  ⟨toString now ++ toString index, url, prompt, aspectRatio, now, enhanced⟩

/-- The single aggregate error message thrown by `handleGenerate` when no
invocation produced an image (src/unnamed/part_001 line 74). -/
def batchFailureMessage : String :=
  "Unable to generate images after multiple auto-fix attempts. This might be due to safety filters or high server load. Please modify your prompt and try again."

/-- The aggregation of `handleGenerate` (src/unnamed/part_001 lines
43-78): four invocations are launched (`Array(4)`), invocation `index`
settles with `gen index` (the `Option String` that its
`generateImageVariation` call returned; the inner `catch` also yields
`null`, so every invocation settles with such a value and `Promise.all`
never rejects).  Successes become `GeneratedImage` records, `null`s are
filtered out, and an empty filtered list raises the one aggregate
error. -/
def handleGenerate (gen : Nat → Option String) (prompt aspectRatio : String)
    (enhanceQuality : Bool) (now : Nat) : Except String (List GeneratedImage) :=
  let generatedResults := (List.range 4).map
    (fun index => (gen index).map
      (fun imgData => mkGeneratedImage now index imgData prompt aspectRatio enhanceQuality))
  let validResults := generatedResults.filterMap id
  if validResults.length = 0 then Except.error batchFailureMessage
  else Except.ok validResults

/-- Number of successful invocations in a completion-order record. -/
def countTrue : List Bool → Nat
  | [] => 0
  | true :: rest => countTrue rest + 1
  | false :: rest => countTrue rest

/-- The progress values written while the invocations settle: starting
from counter value `p`, each successful completion performs the
functional update `progress + 1` (src/unnamed/part_001 line 53) and a
failed invocation writes nothing.  `completions` lists, in completion
order, whether each invocation produced an image. -/
def midProgress : Nat → List Bool → List Nat
  | _, [] => []
  | p, true :: rest => (p + 1) :: midProgress (p + 1) rest
  | p, false :: rest => midProgress p rest

/-- The full sequence of values taken by `genState.progress` during one
batch run of `handleGenerate`: the reset to 0 at the start (line 37), one
increment per successful completion (line 53), then the final write — 4
on the success path (line 78) and 0 on the aggregate-failure path (line
83). -/
def batchProgressTrace (completions : List Bool) : List Nat :=
  (0 :: midProgress 0 completions) ++
    [if countTrue completions = 0 then 0 else 4]

example : batchProgressTrace [true, false, true, false] = [0, 1, 2, 4] := by decide
example : batchProgressTrace [false, false, false, false] = [0, 0] := by decide
example :
    handleGenerate (fun _ => none) "p" "1:1" false 7 =
      Except.error batchFailureMessage := rfl

/-- A JSON value, as produced by `JSON.parse` on the structured payloads
this application exchanges.  Numeric literals are integers, matching the
`Type.INTEGER` fields of the declared response schema
(src/unnamed/part_000 lines 126-143). -/
inductive JsonVal where
  | null : JsonVal
  | bool : Bool → JsonVal
  | num : Int → JsonVal
  | str : String → JsonVal
  | arr : List JsonVal → JsonVal
  | obj : List (String × JsonVal) → JsonVal
  deriving Repr

/-- JSON whitespace. -/
def jsonIsWs (c : Char) : Bool :=
  c = ' ' || c = '\n' || c = '\t' || c = '\r'

/-- Skip JSON whitespace. -/
def jsonSkipWs (cs : List Char) : List Char :=
  cs.dropWhile jsonIsWs

/-- Decode one character escape inside a JSON string literal. -/
def jsonEscChar (c : Char) : Option Char :=
  if c = '"' then some '"'
  else if c = '\\' then some '\\'
  else if c = '/' then some '/'
  else if c = 'n' then some '\n'
  else if c = 't' then some '\t'
  else if c = 'r' then some '\r'
  else none

/-- Read the body of a JSON string literal (the opening quote already
consumed), returning the decoded characters and the input after the
closing quote. -/
def jsonStrChars : List Char → Option (List Char × List Char)
  | [] => none
  | c :: rest =>
    if c = '"' then some ([], rest)
    else if c = '\\' then
      match rest with
      | [] => none
      | e :: rest2 =>
        match jsonEscChar e with
        | none => none
        | some ch =>
          match jsonStrChars rest2 with
          | none => none
          | some (s, r) => some (ch :: s, r)
    else
      match jsonStrChars rest with
      | none => none
      | some (s, r) => some (c :: s, r)

/-- Accumulate a run of decimal digits. -/
def jsonDigits (acc : Nat) : List Char → Nat × List Char
  | [] => (acc, [])
  | c :: rest =>
    if c.isDigit then jsonDigits (acc * 10 + (c.toNat - 48)) rest
    else (acc, c :: rest)

/-- Read a JSON integer literal (optional leading minus). -/
def jsonParseNum : List Char → Option (Int × List Char)
  | [] => none
  | c :: rest =>
    if c = '-' then
      match rest with
      | [] => none
      | d :: _ =>
        if d.isDigit then
          let (n, r) := jsonDigits 0 rest
          some (-(n : Int), r)
        else none
    else if c.isDigit then
      let (n, r) := jsonDigits 0 (c :: rest)
      some ((n : Int), r)
    else none

mutual

/-- Fuel-indexed recursive-descent reading of one JSON value, modelling
`JSON.parse`.  Returns the value and the remaining input, or `none` on
malformed input (where `JSON.parse` throws a SyntaxError). -/
def jsonParseVal : Nat → List Char → Option (JsonVal × List Char)
  | 0, _ => none
  | fuel + 1, cs =>
    match jsonSkipWs cs with
    | 'n' :: 'u' :: 'l' :: 'l' :: rest => some (JsonVal.null, rest)
    | 't' :: 'r' :: 'u' :: 'e' :: rest => some (JsonVal.bool true, rest)
    | 'f' :: 'a' :: 'l' :: 's' :: 'e' :: rest => some (JsonVal.bool false, rest)
    | '"' :: rest =>
      match jsonStrChars rest with
      | none => none
      | some (s, r) => some (JsonVal.str (String.mk s), r)
    | '[' :: rest =>
      match jsonParseArrItems fuel rest with
      | none => none
      | some (vs, r) => some (JsonVal.arr vs, r)
    | '\x7b' :: rest =>
      match jsonParseObjItems fuel rest with
      | none => none
      | some (fs, r) => some (JsonVal.obj fs, r)
    | other =>
      match jsonParseNum other with
      | none => none
      | some (n, r) => some (JsonVal.num n, r)

/-- Read the items of a JSON array after the opening bracket. -/
def jsonParseArrItems : Nat → List Char → Option (List JsonVal × List Char)
  | 0, _ => none
  | fuel + 1, cs =>
    match jsonSkipWs cs with
    | ']' :: rest => some ([], rest)
    | _ =>
      match jsonParseVal fuel cs with
      | none => none
      | some (v, r) =>
        match jsonSkipWs r with
        | ',' :: r2 =>
          match jsonParseArrItems fuel r2 with
          | none => none
          | some (vs, r3) => some (v :: vs, r3)
        | ']' :: r2 => some ([v], r2)
        | _ => none

/-- Read the members of a JSON object after the opening brace. -/
def jsonParseObjItems : Nat → List Char → Option (List (String × JsonVal) × List Char)
  | 0, _ => none
  | fuel + 1, cs =>
    match jsonSkipWs cs with
    | '\x7d' :: rest => some ([], rest)
    | '"' :: rest =>
      match jsonStrChars rest with
      | none => none
      | some (k, r) =>
        match jsonSkipWs r with
        | ':' :: r2 =>
          match jsonParseVal fuel r2 with
          | none => none
          | some (v, r3) =>
            match jsonSkipWs r3 with
            | ',' :: r4 =>
              match jsonParseObjItems fuel r4 with
              | none => none
              | some (fs, r5) => some ((String.mk k, v) :: fs, r5)
            | '\x7d' :: r4 => some ([(String.mk k, v)], r4)
            | _ => none
        | _ => none
    | _ => none

end

/-- The model of `JSON.parse`: read one value, require only trailing
whitespace after it; `none` models the thrown SyntaxError. -/
def jsonParse (s : String) : Option JsonVal :=
  match jsonParseVal (s.length + 1) s.data with
  | some (v, rest) => if jsonSkipWs rest = [] then some v else none
  | none => none

example : jsonParse ("\x7b\x7d") = some (JsonVal.obj []) := rfl
example : jsonParse ("") = none := rfl
example :
    jsonParse ("\x7b\"bestImageIndex\":1,\"analyses\":[\x7b\"index\":0,\"score\":85\x7d]\x7d") =
      some (JsonVal.obj
        [("bestImageIndex", JsonVal.num 1),
         ("analyses", JsonVal.arr [JsonVal.obj
            [("index", JsonVal.num 0), ("score", JsonVal.num 85)]])]) := rfl

/-- One comparison input image (`{ data, mimeType }` in
src/unnamed/part_000 line 93). -/
structure CompImage where
  data : String
  mimeType : String

/-- The judging-rubric prompt of `compareImagesQuality`
(src/unnamed/part_000 lines 104-114). -/
def comparePrompt : String :=
  "You are a world-class photography judge and technical image analyst. \n  \n  Task: Analyze the provided images. Compare them based on:\n  1. Technical Quality: Sharpness, noise levels, exposure balance, dynamic range, and resolution perception.\n  2. Aesthetic Quality: Composition, color harmony, lighting, and visual impact.\n  \n  Output:\n  - Assign a score (0-100) to each image.\n  - Provide a concise critique for each (max 15 words).\n  - Identify the single BEST image index.\n  - Provide a reason why it won."

/-- The request parts sent by `compareImagesQuality`
(src/unnamed/part_000 lines 97-123): the rubric prompt followed by every
input image inline. -/
def compareRequestParts (images : List CompImage) : List ReqPart :=
  ReqPart.text comparePrompt ::
    images.map (fun img => ReqPart.inline img.mimeType img.data)

/-- The embedded `compareImagesQuality` (src/unnamed/part_000 lines
92-148).  The provider maps the request parts to the `text` of its
response (`none` when the field is absent).  The source returns
`JSON.parse(response.text || "\x7b\x7d")`: an absent or empty (falsy)
text is replaced by the empty-object literal before parsing, a parse
failure propagates to the caller as an error, and the parsed value is
returned without any validation. -/
def compareImagesQuality (images : List CompImage)
    (provider : List ReqPart → Option String) : Except String JsonVal :=
  let text := provider (compareRequestParts images)
  let raw := match text with
    | none => "\x7b\x7d"
    | some s => if s = "" then "\x7b\x7d" else s
  match jsonParse raw with
  | some v => Except.ok v
  | none => Except.error "Unexpected end of JSON input"

/-- Field lookup on a JSON object. -/
def getField (v : JsonVal) (key : String) : Option JsonVal :=
  match v with
  | JsonVal.obj fields => fields.lookup key
  | _ => none

/-- The entries of the `analyses` field, when it is present and is an
array. -/
def analysesEntries (v : JsonVal) : Option (List JsonVal) :=
  match getField v ("analyses") with
  | some (JsonVal.arr entries) => some entries
  | _ => none

/-- The `index` field of one analysis entry. -/
def entryIndex (e : JsonVal) : Option Int :=
  match getField e ("index") with
  | some (JsonVal.num n) => some n
  | _ => none

/-- Whether a comparison payload conforms to the declared schema for a
three-image call: `bestImageIndex` is an integer in [0,2] and `analyses`
has exactly 3 entries whose `index` fields are distinct integers in
[0,2]. -/
def conformsForThree (v : JsonVal) : Bool :=
  (match getField v ("bestImageIndex") with
   | some (JsonVal.num b) => decide (0 ≤ b) && decide (b ≤ 2)
   | _ => false) &&
  (match analysesEntries v with
   | some entries =>
     entries.length = 3 &&
     (entries.filterMap entryIndex).length = 3 &&
     decide (entries.filterMap entryIndex).Nodup &&
     (entries.filterMap entryIndex).all (fun i => decide (0 ≤ i) && decide (i ≤ 2))
   | none => false)

/-- One uploaded image of the Quality Comparator UI
(src/unnamed/part_003 line 8). -/
structure UploadedImage where
  data : String
  mime : String
  preview : String
  deriving Repr, DecidableEq

/-- The state update performed by `processFiles` once all readers finish
(src/unnamed/part_003 line 39): append the newly read images and keep
only the first 4. -/
def processFilesUpdate (prev newImages : List UploadedImage) : List UploadedImage :=
  (prev ++ newImages).take 4

/-- The state update performed by `removeImage` (src/unnamed/part_003
line 49): drop the element at `index`, keeping every other position. -/
def removeImageUpdate (prev : List UploadedImage) (index : Nat) : List UploadedImage :=
  (prev.enum.filter (fun p => p.1 ≠ index)).map (fun p => p.2)

/-- One user operation on the comparator's image list. -/
inductive ImageListOp where
  | upload : List UploadedImage → ImageListOp
  | remove : Nat → ImageListOp

/-- Apply one operation to the image list. -/
def applyImageListOp (st : List UploadedImage) : ImageListOp → List UploadedImage
  | ImageListOp.upload newImages => processFilesUpdate st newImages
  | ImageListOp.remove index => removeImageUpdate st index

/-- Apply a sequence of upload/remove operations, oldest first. -/
def applyImageListOps (ops : List ImageListOp) (st : List UploadedImage) : List UploadedImage :=
  ops.foldl applyImageListOp st

/-- C9: calling the Variation Generator with `maxRetries < 1` (for
example 0) makes no provider call, awaits no backoff delay, and returns
the absence value `null` immediately, because the 1-based `for` loop body
never runs. -/
theorem generate_skips_provider_when_maxRetries_lt_one
    (provider : List ReqPart → Nat → AttemptOutcome)
    (referenceImageBase64 mimeType prompt aspectRatio : String)
    (enhanceQuality : Bool) (maxRetries : Int) (h : maxRetries < 1) :
    generateImageVariation provider referenceImageBase64 mimeType prompt aspectRatio
      enhanceQuality maxRetries = ⟨0, [], none⟩ := by
  have h0 : maxRetries.toNat = 0 := Int.toNat_eq_zero.mpr (by omega)
  unfold generateImageVariation
  rw [h0]
  rfl

/-- Witness for C9 at `maxRetries = 0`. -/
theorem generate_skips_provider_when_maxRetries_lt_one_witness :
    generateImageVariation (fun _ _ => AttemptOutcome.err) "ref" "image/png" "p" "1:1"
      false 0 = ⟨0, [], none⟩ :=
  generate_skips_provider_when_maxRetries_lt_one _ "ref" "image/png" "p" "1:1" false 0
    (by decide)

/-- C8: for every instruction text and aspect ratio (the reference image
does not enter prompt construction), the prompt built with
`enhanceQuality = false` is a prefix of the prompt built with
`enhanceQuality = true`: the enhanced prompt is the plain prompt with the
enhancement block appended, and the base directive block is present at
the front in both cases. -/
theorem prompt_enhancement_appends_suffix (prompt aspectRatio : String) :
    buildSystemPrompt prompt aspectRatio true =
      buildSystemPrompt prompt aspectRatio false ++ enhancementBlock ∧
    (∀ enhanceQuality : Bool, ∃ tail,
      buildSystemPrompt prompt aspectRatio enhanceQuality =
        basePromptBlock prompt aspectRatio ++ tail) := by
  refine ⟨rfl, fun enhanceQuality => ?_⟩
  cases enhanceQuality with
  | false => exact ⟨"", (String.append_empty _).symm⟩
  | true => exact ⟨enhancementBlock, rfl⟩

/-- C5: when every one of the four invocations of a batch returns
absence, `handleGenerate` raises exactly the one aggregate user-facing
error (hinting at safety filtering or overload) and returns no results;
no per-invocation error is surfaced. -/
theorem batch_all_fail_raises_single_aggregate_error
    (gen : Nat → Option String) (prompt aspectRatio : String)
    (enhanceQuality : Bool) (now : Nat)
    (h : ∀ index, index < 4 → gen index = none) :
    handleGenerate gen prompt aspectRatio enhanceQuality now =
      Except.error batchFailureMessage := by
  have h0 := h 0 (by omega)
  have h1 := h 1 (by omega)
  have h2 := h 2 (by omega)
  have h3 := h 3 (by omega)
  simp [handleGenerate, List.range_succ, h0, h1, h2, h3]

/-- Witness for C5: a batch whose four invocations all return absence. -/
theorem batch_all_fail_raises_single_aggregate_error_witness :
    handleGenerate (fun _ => none) "p" "1:1" false 7 =
      Except.error batchFailureMessage :=
  batch_all_fail_raises_single_aggregate_error _ "p" "1:1" false 7 (fun _ _ => rfl)

/-- C6: when the provider's comparison response carries an absent or
empty (falsy) `text`, or the empty-object payload, `compareImagesQuality`
does not raise: `JSON.parse` is applied to the empty-object literal and
the caller receives the empty result object. -/
theorem compare_empty_payload_yields_empty_object
    (images : List CompImage) (provider : List ReqPart → Option String)
    (h : provider (compareRequestParts images) = none ∨
         provider (compareRequestParts images) = some "" ∨
         provider (compareRequestParts images) = some ("\x7b\x7d")) :
    compareImagesQuality images provider = Except.ok (JsonVal.obj []) := by
  unfold compareImagesQuality
  rcases h with h | h | h <;> rw [h] <;> rfl

/-- Witness for C6 at a provider whose response has no `text` field. -/
theorem compare_empty_payload_yields_empty_object_witness :
    compareImagesQuality [] (fun _ => none) = Except.ok (JsonVal.obj []) :=
  compare_empty_payload_yields_empty_object [] (fun _ => none) (Or.inl rfl)

/-- When every attempt fails, the retry loop starting at attempt
`attempt` with `remaining` iterations left makes `remaining` calls, waits
`1000 * 2 ^ (i - 1)` ms after each non-final attempt `i`, and ends with
`none`. -/
theorem runGenAux_all_fail (provider : Nat → AttemptOutcome)
    (hfail : ∀ n, attemptResult (provider n) = none) :
    ∀ remaining attempt : Nat, 1 ≤ attempt →
      runGenAux provider attempt remaining =
        ⟨remaining,
         (List.range (remaining - 1)).map (fun j => 1000 * 2 ^ (attempt - 1 + j)),
         none⟩ := by
  intro remaining
  induction remaining with
  | zero => intro attempt _; rfl
  | succ rem ih =>
    intro attempt ha
    rw [runGenAux, hfail attempt]
    cases rem with
    | zero => simp
    | succ m =>
      rw [if_neg (by omega), ih (attempt + 1) (by omega)]
      have hdelays :
          1000 * 2 ^ (attempt - 1) ::
            (List.range (m + 1 - 1)).map (fun j => 1000 * 2 ^ (attempt + 1 - 1 + j)) =
          (List.range (m + 1 + 1 - 1)).map (fun j => 1000 * 2 ^ (attempt - 1 + j)) := by
        have h1 : m + 1 - 1 = m := rfl
        have h2 : m + 1 + 1 - 1 = m + 1 := rfl
        rw [h1, h2, List.range_succ_eq_map]
        simp only [List.map_cons, List.map_map, Nat.add_zero]
        congr 1
        exact List.map_congr_left fun j _ => by
          simp only [Function.comp_apply]
          have harg : attempt + 1 - 1 + j = attempt - 1 + j.succ := by omega
          rw [harg]
      rw [GenRun.mk.injEq]
      exact ⟨rfl, hdelays, rfl⟩

/-- C2: for every `maxAttempts = k ≥ 1`, if the provider fails on every
attempt (the call raises, or the response carries no image payload —
`attemptResult` is `none` either way), `generateImageVariation` makes
exactly `k` provider calls, awaits exactly `1000 * 2 ^ (i - 1)` ms
(that is, `2 ^ (i - 1)` seconds: 1s, 2s, 4s, …) after each attempt
`i ∈ 1..k-1`, awaits nothing after the final attempt, and returns the
absence value `null` (`none`) rather than raising. -/
theorem generate_all_fail_attempt_count_and_backoff
    (provider : List ReqPart → Nat → AttemptOutcome)
    (referenceImageBase64 mimeType prompt aspectRatio : String)
    (enhanceQuality : Bool) (maxRetries : Int)
    (hk : 1 ≤ maxRetries)
    (hfail : ∀ parts n, attemptResult (provider parts n) = none) :
    generateImageVariation provider referenceImageBase64 mimeType prompt aspectRatio
        enhanceQuality maxRetries =
      ⟨maxRetries.toNat,
       (List.range (maxRetries.toNat - 1)).map (fun j => 1000 * 2 ^ j),
       none⟩ := by
  unfold generateImageVariation
  rw [runGenAux_all_fail _ (hfail _) maxRetries.toNat 1 le_rfl]
  simp

/-- Witness for C2 at `maxAttempts = 3` and an always-raising provider:
3 calls, delays 1000 ms and 2000 ms, result `null`. -/
theorem generate_all_fail_attempt_count_and_backoff_witness :
    generateImageVariation (fun _ _ => AttemptOutcome.err) "ref" "image/png" "p" "1:1"
        false 3 =
      ⟨(3 : Int).toNat,
       (List.range ((3 : Int).toNat - 1)).map (fun j => 1000 * 2 ^ j),
       none⟩ :=
  generate_all_fail_attempt_count_and_backoff _ "ref" "image/png" "p" "1:1" false 3
    (by decide) (fun _ _ => rfl)

/-- C3: when the first provider call returns a response whose first
candidate has at least one part carrying (truthy) inline image data,
`generateImageVariation` makes exactly one provider call, awaits no
backoff delay, and returns the data URL built from the first such part's
payload (`firstImagePart` takes the first matching part, ignoring the
rest). -/
theorem generate_first_attempt_success
    (provider : List ReqPart → Nat → AttemptOutcome)
    (referenceImageBase64 mimeType prompt aspectRatio : String)
    (enhanceQuality : Bool) (maxRetries : Int) (hk : 1 ≤ maxRetries)
    (resp : GenResponse) (c : Candidate) (cs : List Candidate)
    (parts : List RespPart) (d : String)
    (hprov : provider
        (genRequestParts referenceImageBase64 mimeType prompt aspectRatio enhanceQuality)
        1 = AttemptOutcome.ok resp)
    (hcand : resp.candidates = some (c :: cs))
    (hparts : c.content.parts = some parts)
    (hfirst : firstImagePart parts = some d) :
    generateImageVariation provider referenceImageBase64 mimeType prompt aspectRatio
        enhanceQuality maxRetries =
      ⟨1, [], some ("data:image/png;base64," ++ d)⟩ := by
  have hres : attemptResult
      (provider
        (genRequestParts referenceImageBase64 mimeType prompt aspectRatio enhanceQuality)
        1) = some ("data:image/png;base64," ++ d) := by
    rw [hprov]
    simp [attemptResult, hcand, hparts, hfirst]
  obtain ⟨m, hm⟩ : ∃ m, maxRetries.toNat = m + 1 := ⟨maxRetries.toNat - 1, by omega⟩
  unfold generateImageVariation
  rw [hm, runGenAux, hres]

/-- Witness for C3: a provider that immediately returns one candidate
whose parts hold inline image data. -/
theorem generate_first_attempt_success_witness :
    generateImageVariation
        (fun _ _ => AttemptOutcome.ok
          ⟨some [⟨⟨some [⟨none, some ⟨"image/png", "QUJD"⟩⟩]⟩⟩]⟩)
        "ref" "image/png" "p" "1:1" false 3 =
      ⟨1, [], some ("data:image/png;base64," ++ "QUJD")⟩ :=
  generate_first_attempt_success _ "ref" "image/png" "p" "1:1" false 3 (by decide)
    ⟨some [⟨⟨some [⟨none, some ⟨"image/png", "QUJD"⟩⟩]⟩⟩]⟩
    ⟨⟨some [⟨none, some ⟨"image/png", "QUJD"⟩⟩]⟩⟩ []
    [⟨none, some ⟨"image/png", "QUJD"⟩⟩] "QUJD"
    rfl rfl rfl rfl

/-- Mapping each surviving `GeneratedImage` back to its url recovers the
successful invocation outcomes in launch order. -/
theorem filterMap_map_url (gen : Nat → Option String)
    (f : Nat → String → GeneratedImage) (hurl : ∀ i u, (f i u).url = u) :
    ∀ l : List Nat,
      ((l.map (fun i => (gen i).map (f i))).filterMap id).map GeneratedImage.url =
        (l.map gen).filterMap id := by
  intro l
  induction l with
  | nil => rfl
  | cons a as ih =>
    simp only [List.filterMap_map, Function.id_comp] at ih
    cases h : gen a with
    | none => simp [h, ih, List.filterMap_map]
    | some u => simp [h, ih, hurl, List.filterMap_map]

/-- C4: for a batch of four invocations of which exactly two succeed,
`handleGenerate` returns `Except.ok` (no error is surfaced) with exactly
two results, and mapping the results to their urls recovers the two
successful outcomes in launch order — the result order comes from the
`Promise.all` slot order, not from completion time. -/
theorem batch_two_successes_returns_two_in_launch_order
    (gen : Nat → Option String) (prompt aspectRatio : String)
    (enhanceQuality : Bool) (now : Nat)
    (h2 : (((List.range 4).map gen).filterMap id).length = 2) :
    ∃ validResults,
      handleGenerate gen prompt aspectRatio enhanceQuality now =
        Except.ok validResults ∧
      validResults.length = 2 ∧
      validResults.map GeneratedImage.url = ((List.range 4).map gen).filterMap id := by
  have hmap := filterMap_map_url gen
    (fun index imgData => mkGeneratedImage now index imgData prompt aspectRatio enhanceQuality)
    (fun _ _ => rfl) (List.range 4)
  have hlen :
      (((List.range 4).map (fun index => (gen index).map
          (fun imgData =>
            mkGeneratedImage now index imgData prompt aspectRatio enhanceQuality))).filterMap
        id).length = 2 := by
    have hcong := congrArg List.length hmap
    rw [List.length_map] at hcong
    rw [hcong, h2]
  refine ⟨_, ?_, hlen, hmap⟩
  unfold handleGenerate
  rw [if_neg (by rw [hlen]; omega)]

/-- Witness for C4: invocations 0 and 2 succeed, 1 and 3 return
absence. -/
theorem batch_two_successes_returns_two_in_launch_order_witness :
    ∃ validResults,
      handleGenerate
          (fun index => if index = 0 then some "u0" else if index = 2 then some "u2" else none)
          "p" "1:1" false 5 =
        Except.ok validResults ∧
      validResults.length = 2 ∧
      validResults.map GeneratedImage.url =
        ((List.range 4).map
          (fun index => if index = 0 then some "u0" else if index = 2 then some "u2" else none)).filterMap
          id :=
  batch_two_successes_returns_two_in_launch_order _ "p" "1:1" false 5 (by decide)

/-- Removing an image never lengthens the comparator's image list. -/
theorem removeImageUpdate_length_le (prev : List UploadedImage) (index : Nat) :
    (removeImageUpdate prev index).length ≤ prev.length := by
  unfold removeImageUpdate
  rw [List.length_map]
  exact le_trans (List.length_filter_le _ _) (le_of_eq List.enum_length)

/-- The comparator's image list stays within 4 elements across any
sequence of upload and remove operations, from any state within the
bound. -/
theorem applyImageListOps_length_le (ops : List ImageListOp) :
    ∀ st : List UploadedImage, st.length ≤ 4 →
      (applyImageListOps ops st).length ≤ 4 := by
  induction ops with
  | nil => intro st h; exact h
  | cons op rest ih =>
    intro st h
    refine ih (applyImageListOp st op) ?_
    cases op with
    | upload newImages =>
      simp only [applyImageListOp, processFilesUpdate]
      rw [List.length_take]
      omega
    | remove index =>
      exact le_trans (removeImageUpdate_length_le st index) h

/-- C10: starting from the empty list, the Quality Comparator's image
list never exceeds 4 elements after any sequence of upload and remove
operations; every upload truncates the combined list to its first 4
images, and removing an image only shortens the list. -/
theorem comparator_image_list_never_exceeds_four :
    (∀ ops : List ImageListOp, (applyImageListOps ops []).length ≤ 4) ∧
    (∀ prev newImages : List UploadedImage,
      processFilesUpdate prev newImages = (prev ++ newImages).take 4) ∧
    (∀ (prev : List UploadedImage) (index : Nat),
      (removeImageUpdate prev index).length ≤ prev.length) :=
  ⟨fun ops => applyImageListOps_length_le ops [] (by simp),
   fun _ _ => rfl,
   removeImageUpdate_length_le⟩

/-- There are at most as many successes as settled invocations. -/
theorem countTrue_le_length (l : List Bool) : countTrue l ≤ l.length := by
  induction l with
  | nil => exact le_rfl
  | cons b rest ih =>
    cases b with
    | true => simp only [countTrue, List.length_cons]; omega
    | false => simp only [countTrue, List.length_cons]; omega

/-- The mid-run progress values, seeded at `p`, form a non-decreasing
chain starting from `p`. -/
theorem midProgress_chain (l : List Bool) :
    ∀ p, List.Chain' (· ≤ ·) (p :: midProgress p l) := by
  induction l with
  | nil => intro p; exact List.chain'_singleton p
  | cons b rest ih =>
    intro p
    cases b with
    | true =>
      rw [midProgress, List.chain'_cons]
      exact ⟨Nat.le_succ p, ih (p + 1)⟩
    | false =>
      rw [midProgress]
      exact ih p

/-- The last mid-run progress value is the seed plus the number of
successes. -/
theorem midProgress_getLast (l : List Bool) :
    ∀ p, (p :: midProgress p l).getLast? = some (p + countTrue l) := by
  induction l with
  | nil => intro p; simp [midProgress, countTrue]
  | cons b rest ih =>
    intro p
    cases b with
    | true =>
      rw [midProgress, countTrue, List.getLast?_cons_cons, ih (p + 1)]
      have : p + 1 + countTrue rest = p + (countTrue rest + 1) := by omega
      rw [this]
    | false =>
      rw [midProgress, countTrue]
      exact ih p

/-- Every mid-run progress value is at most the seed plus the number of
successes. -/
theorem midProgress_le (l : List Bool) :
    ∀ p x, x ∈ midProgress p l → x ≤ p + countTrue l := by
  induction l with
  | nil => intro p x hx; cases hx
  | cons b rest ih =>
    intro p x hx
    cases b with
    | true =>
      rw [midProgress] at hx
      rw [countTrue]
      rcases List.mem_cons.mp hx with h | h
      · omega
      · have := ih (p + 1) x h
        omega
    | false =>
      rw [midProgress] at hx
      rw [countTrue]
      exact ih p x hx

/-- C1 fails on the code: in a batch run of count 4 in which exactly 2
invocations succeed, the progress counter's final value is 4 (the success
path writes `progress: 4` unconditionally, src/unnamed/part_001 line 78),
not the number 2 of invocations that succeeded. -/
theorem batch_progress_final_value_counterexample :
    countTrue [true, true, false, false] = 2 ∧
    (batchProgressTrace [true, true, false, false]).getLast? = some 4 ∧
    (batchProgressTrace [true, true, false, false]).getLast? ≠
      some (countTrue [true, true, false, false]) := by
  decide

/-- C1 amended: for every batch run of count 4, the progress counter is
reset to 0 at the start, is non-decreasing throughout the run, never
exceeds 4, and at the end of the run equals 4 when at least one
invocation succeeded and 0 when none did (rather than the number of
successes). -/
theorem batch_progress_counter_amended (completions : List Bool)
    (hlen : completions.length = 4) :
    (batchProgressTrace completions).head? = some 0 ∧
    List.Chain' (· ≤ ·) (batchProgressTrace completions) ∧
    (∀ x ∈ batchProgressTrace completions, x ≤ 4) ∧
    (batchProgressTrace completions).getLast? =
      some (if countTrue completions = 0 then 0 else 4) := by
  have hct : countTrue completions ≤ 4 := by
    have := countTrue_le_length completions
    omega
  refine ⟨?_, ?_, ?_, ?_⟩
  · rfl
  · rw [batchProgressTrace, List.chain'_append]
    refine ⟨midProgress_chain completions 0, List.chain'_singleton _, ?_⟩
    intro x hx y hy
    rw [midProgress_getLast completions 0] at hx
    simp only [List.head?_cons, Option.mem_def, Option.some.injEq] at hx hy
    subst hx
    subst hy
    by_cases h0 : countTrue completions = 0
    · simp [h0]
    · rw [if_neg h0]
      omega
  · intro x hx
    rw [batchProgressTrace] at hx
    rcases List.mem_append.mp hx with h | h
    · rcases List.mem_cons.mp h with h | h
      · omega
      · have := midProgress_le completions 0 x h
        omega
    · rcases List.mem_singleton.mp h with rfl
      by_cases h0 : countTrue completions = 0
      · simp [h0]
      · rw [if_neg h0]
  · rw [batchProgressTrace, List.getLast?_concat]

/-- Witness for the amended C1 at a run where invocations complete in
the order success, success, success, failure. -/
theorem batch_progress_counter_amended_witness :
    (batchProgressTrace [true, true, true, false]).head? = some 0 ∧
    List.Chain' (· ≤ ·) (batchProgressTrace [true, true, true, false]) ∧
    (∀ x ∈ batchProgressTrace [true, true, true, false], x ≤ 4) ∧
    (batchProgressTrace [true, true, true, false]).getLast? =
      some (if countTrue [true, true, true, false] = 0 then 0 else 4) :=
  batch_progress_counter_amended [true, true, true, false] rfl

/-- C7 fails on the code: `compareImagesQuality` returns the provider's
parsed payload without any validation, so a call with exactly 3 images
whose provider response carries an empty `analyses` array and
`bestImageIndex = 5` yields a result with 0 analyses entries and an
out-of-range best index. -/
theorem compare_three_images_schema_counterexample :
    compareImagesQuality
        [⟨"imgA", "image/png"⟩, ⟨"imgB", "image/png"⟩, ⟨"imgC", "image/png"⟩]
        (fun _ =>
          some ("\x7b\"bestImageIndex\":5,\"winnerReason\":\"off\",\"analyses\":[]\x7d")) =
      Except.ok (JsonVal.obj
        [("bestImageIndex", JsonVal.num 5),
         ("winnerReason", JsonVal.str "off"),
         ("analyses", JsonVal.arr [])]) ∧
    analysesEntries (JsonVal.obj
        [("bestImageIndex", JsonVal.num 5),
         ("winnerReason", JsonVal.str "off"),
         ("analyses", JsonVal.arr [])]) = some [] ∧
    conformsForThree (JsonVal.obj
        [("bestImageIndex", JsonVal.num 5),
         ("winnerReason", JsonVal.str "off"),
         ("analyses", JsonVal.arr [])]) = false :=
  ⟨rfl, rfl, rfl⟩

/-- C7 amended: the Quality Comparator passes the provider's parsed
structured payload through unchanged, so for a call with exactly 3
images the returned result contains exactly 3 analyses entries with
distinct indices in [0,2] and a best index in 0..2 exactly when the
provider's response payload does (the provider is trusted; the code
itself performs no validation). -/
theorem compare_three_images_conformant_passthrough
    (images : List CompImage) (provider : List ReqPart → Option String)
    (text : String) (v : JsonVal)
    (h3 : images.length = 3)
    (hprov : provider (compareRequestParts images) = some text)
    (hparse : jsonParse text = some v)
    (hconf : conformsForThree v = true) :
    ∃ result,
      compareImagesQuality images provider = Except.ok result ∧
      conformsForThree result = true := by
  refine ⟨v, ?_, hconf⟩
  have hne : text ≠ "" := by
    intro he
    subst he
    have h0 : jsonParse "" = (none : Option JsonVal) := rfl
    rw [h0] at hparse
    cases hparse
  simp only [compareImagesQuality, hprov, if_neg hne, hparse]

set_option maxRecDepth 100000 in
/-- Witness for the amended C7: a provider whose payload conforms to the
declared three-image schema. -/
theorem compare_three_images_conformant_passthrough_witness :
    ∃ result,
      compareImagesQuality
          [⟨"imgA", "image/png"⟩, ⟨"imgB", "image/png"⟩, ⟨"imgC", "image/png"⟩]
          (fun _ =>
            some ("\x7b\"bestImageIndex\":1,\"winnerReason\":\"sharp\",\"analyses\":[\x7b\"index\":0,\"score\":70,\"critique\":\"soft\"\x7d,\x7b\"index\":1,\"score\":90,\"critique\":\"crisp\"\x7d,\x7b\"index\":2,\"score\":60,\"critique\":\"dark\"\x7d]\x7d")) =
        Except.ok result ∧
      conformsForThree result = true :=
  compare_three_images_conformant_passthrough
    [⟨"imgA", "image/png"⟩, ⟨"imgB", "image/png"⟩, ⟨"imgC", "image/png"⟩]
    (fun _ =>
      some ("\x7b\"bestImageIndex\":1,\"winnerReason\":\"sharp\",\"analyses\":[\x7b\"index\":0,\"score\":70,\"critique\":\"soft\"\x7d,\x7b\"index\":1,\"score\":90,\"critique\":\"crisp\"\x7d,\x7b\"index\":2,\"score\":60,\"critique\":\"dark\"\x7d]\x7d"))
    ("\x7b\"bestImageIndex\":1,\"winnerReason\":\"sharp\",\"analyses\":[\x7b\"index\":0,\"score\":70,\"critique\":\"soft\"\x7d,\x7b\"index\":1,\"score\":90,\"critique\":\"crisp\"\x7d,\x7b\"index\":2,\"score\":60,\"critique\":\"dark\"\x7d]\x7d")
    (JsonVal.obj
      [("bestImageIndex", JsonVal.num 1),
       ("winnerReason", JsonVal.str "sharp"),
       ("analyses", JsonVal.arr
         [JsonVal.obj
           [("index", JsonVal.num 0), ("score", JsonVal.num 70),
            ("critique", JsonVal.str "soft")],
          JsonVal.obj
           [("index", JsonVal.num 1), ("score", JsonVal.num 90),
            ("critique", JsonVal.str "crisp")],
          JsonVal.obj
           [("index", JsonVal.num 2), ("score", JsonVal.num 60),
            ("critique", JsonVal.str "dark")]])])
    rfl rfl rfl rfl
